import Mathlib

/-!
Verification of the content-summarizer application (`src/app.py`) against its
natural-language specification.

The Python source is shallowly embedded: every helper function of the script
(`get_youtube_video_id`, `fetch_youtube_transcript`, `fetch_website_text`) and
every button handler (video file, YouTube URL, website URL) is translated into
an executable Lean definition.  External services (the Google file-upload
service, the transcript API, HTTP fetching and HTML parsing, the summarization
agent) are modelled as explicit environment data consumed by those
definitions, and the Streamlit UI effects (warnings, errors, rendered output)
are modelled as explicit fields of outcome records.
-/

/-! ## Character classes used by the Python code

`isPySpace` models Python's `\s` / `str.strip` whitespace on the ASCII range:
space, tab, newline, carriage return, vertical tab and form feed. -/

def isPySpace (c : Char) : Bool :=
  c == ' ' || c == '\t' || c == '\n' || c == '\r' || c == '\x0b' || c == '\x0c'

/-- Model of the regex class `\S` (any non-whitespace character). -/
def isNonSpace (c : Char) : Bool := !isPySpace c

/-- Model of the regex class `[a-zA-Z0-9_-]` (YouTube video-id alphabet). -/
def isIdChar (c : Char) : Bool :=
  ('a' ≤ c && c ≤ 'z') || ('A' ≤ c && c ≤ 'Z') || ('0' ≤ c && c ≤ '9') ||
    c == '_' || c == '-'

/-- Model of the regex class `[^\/\n\s]` used in `get_youtube_video_id`. -/
def isSeg (c : Char) : Bool := !(c == '/' || c == '\n' || isPySpace c)

/-- Model of the regex class `[?&]` used in `get_youtube_video_id`. -/
def isQA (c : Char) : Bool := c == '?' || c == '&'

/-- Python's `not s.strip()`: `true` iff the string is empty or consists of
whitespace only. -/
def pyBlank (s : String) : Bool := s.data.all isPySpace

/-- Python's `s.strip()`: remove leading and trailing whitespace. -/
def pyStrip (s : String) : String :=
  String.mk (((s.data.dropWhile isPySpace).reverse.dropWhile isPySpace).reverse)

/-- Python's substring test `needle in hay` on lists of characters:
`isPrefixB needle hay` tests whether `needle` is a prefix of `hay`. -/
def isPrefixB : List Char → List Char → Bool
  | [], _ => true
  | _ :: _, [] => false
  | a :: as, b :: bs => a == b && isPrefixB as bs

/-- Python's substring test `needle in hay` on lists of characters. -/
def containsSub : List Char → List Char → Bool
  | hay, needle =>
    isPrefixB needle hay ||
      match hay with
      | [] => false
      | _ :: t => containsSub t needle

/-- Python's `needle in hay` on strings. -/
def strContains (hay needle : String) : Bool := containsSub hay.data needle.data

/-! ## The YouTube URL parser (`get_youtube_video_id`, app.py lines 60-66)

The Python function runs
`re.search(r"(?:youtube\.com\/(?:[^\/\n\s]+\/\S+\/|(?:v|e(?:mbed)?)\/|\S*?[?&]v=)|youtu\.be\/)([a-zA-Z0-9_-]{11})", url)`
and returns the captured group, or `None` when there is no match (modelled
here as `none`).  The pattern is embedded as a backtracking matcher in
continuation-passing style, specialised to this single pattern; alternatives
are tried in the regex's left-to-right order and quantifiers follow Python's
greedy (`+`) and lazy (`*?`) backtracking priorities, so the embedded matcher
returns exactly the group `re.search` captures. -/

/-- First-match-wins alternation of two match results. -/
def oor (a b : Option String) : Option String :=
  match a with
  | some r => some r
  | none => b

/-- Match a literal sequence of characters, then continue with `k`. -/
def lit : List Char → List Char → (List Char → Option String) → Option String
  | [], cs, k => k cs
  | _ :: _, [], _ => none
  | c :: p, d :: cs, k => if d = c then lit p cs k else none

/-- Match a single character satisfying `p`, then continue with `k`. -/
def cls (p : Char → Bool) (cs : List Char) (k : List Char → Option String) :
    Option String :=
  match cs with
  | [] => none
  | c :: cs' => if p c then k cs' else none

/-- Greedy `p*`: prefer consuming a further `p`-character, backtracking into
`k` from the longest consumed run downwards. -/
def greedyStar (p : Char → Bool) (cs : List Char)
    (k : List Char → Option String) : Option String :=
  match cs with
  | [] => k []
  | c :: cs' =>
    if p c then oor (greedyStar p cs' k) (k (c :: cs')) else k (c :: cs')

/-- Greedy `p+`: one mandatory `p`-character followed by greedy `p*`. -/
def greedyPlus (p : Char → Bool) (cs : List Char)
    (k : List Char → Option String) : Option String :=
  match cs with
  | [] => none
  | c :: cs' => if p c then greedyStar p cs' k else none

/-- Lazy `p*?`: prefer continuing with `k` immediately, consuming a further
`p`-character only when the continuation fails. -/
def lazyStar (p : Char → Bool) (cs : List Char)
    (k : List Char → Option String) : Option String :=
  oor (k cs)
    (match cs with
     | [] => none
     | c :: cs' => if p c then lazyStar p cs' k else none)

/-- The capture group `([a-zA-Z0-9_-]{11})`: exactly `n` id-characters,
returned as the captured list (any remaining input is left unconsumed, since
the pattern ends here). -/
def captureN : Nat → List Char → Option (List Char)
  | 0, _ => some []
  | _ + 1, [] => none
  | n + 1, c :: cs =>
    if isIdChar c then (captureN n cs).map (fun l => c :: l) else none

/-- Continuation closing the pattern: capture the 11-character video id. -/
def kCap (cs : List Char) : Option String := (captureN 11 cs).map String.mk

/-- After `[^\/\n\s]+\/\S+\/` comes the capture (via the closing `\/`). -/
def kSlashCap (cs : List Char) : Option String := lit ['/'] cs kCap

/-- The `\S+` of the first inner alternative, followed by `\/` and capture. -/
def kS2 (cs : List Char) : Option String := greedyPlus isNonSpace cs kSlashCap

/-- The first `\/` of the first inner alternative. -/
def kSlashS2 (cs : List Char) : Option String := lit ['/'] cs kS2

/-- Inner alternative `[^\/\n\s]+\/\S+\/` followed by the capture. -/
def altSeg (cs : List Char) : Option String := greedyPlus isSeg cs kSlashS2

/-- Inner alternative `(?:v|e(?:mbed)?)\/` followed by the capture; the
branches are tried in the regex's order `v/`, `embed/`, `e/`. -/
def altVE (cs : List Char) : Option String :=
  oor (lit ['v', '/'] cs kCap)
    (oor (lit ['e', 'm', 'b', 'e', 'd', '/'] cs kCap) (lit ['e', '/'] cs kCap))

/-- The literal `v=` ending the lazy inner alternative. -/
def kVEq (cs : List Char) : Option String := lit ['v', '='] cs kCap

/-- The `[?&]` of the lazy inner alternative. -/
def kQA (cs : List Char) : Option String := cls isQA cs kVEq

/-- Inner alternative `\S*?[?&]v=` followed by the capture. -/
def altLazy (cs : List Char) : Option String := lazyStar isNonSpace cs kQA

/-- Attempt to match the whole pattern at the current position. -/
def matchAt (cs : List Char) : Option String :=
  oor
    (lit "youtube.com/".data cs
      (fun cs1 => oor (altSeg cs1) (oor (altVE cs1) (altLazy cs1))))
    (lit "youtu.be/".data cs kCap)

/-- `re.search`: try the pattern at each position from the left; the first
position with a match wins. -/
def searchAux : List Char → Option String
  | [] => matchAt []
  | c :: cs =>
    match matchAt (c :: cs) with
    | some r => some r
    | none => searchAux cs

/-- `get_youtube_video_id` (app.py lines 60-66): `re.search` over the URL,
returning the captured 11-character id, or `none` for Python's `None`. -/
def get_youtube_video_id (url : String) : Option String := searchAux url.data

/-! Concrete checks of the embedded matcher, validated against CPython's
`re.search` on the same inputs. -/

example : get_youtube_video_id "https://www.youtube.com/watch?v=dQw4w9WgXcQ" =
    some "dQw4w9WgXcQ" := by decide
example : get_youtube_video_id "youtu.be/dQw4w9WgXcQ" = some "dQw4w9WgXcQ" := by decide
example : get_youtube_video_id "youtube.com/embed/dQw4w9WgXcQ" = some "dQw4w9WgXcQ" := by decide
example : get_youtube_video_id "youtube.com/v/dQw4w9WgXcQ" = some "dQw4w9WgXcQ" := by decide
example : get_youtube_video_id "example.com" = none := by decide
example : get_youtube_video_id "youtube.com/watch?v=short" = none := by decide

example : get_youtube_video_id "youtube.com/foo/bar/dQw4w9WgXcQ" = some "dQw4w9WgXcQ" := by decide
example : get_youtube_video_id "youtube.com/e/dQw4w9WgXcQ" = some "dQw4w9WgXcQ" := by decide
example : get_youtube_video_id "youtube.com/a/b/cdQw4w9WgXcQtail" = some "cdQw4w9WgXc" := by decide
example : get_youtube_video_id "xyoutu.be/dQw4w9WgXcQ youtube.com/v/ABCDEFGHIJK" = some "dQw4w9WgXcQ" := by decide
example : get_youtube_video_id "youtube.com/watch?x=1&v=dQw4w9WgXcQ" = some "dQw4w9WgXcQ" := by decide
example : get_youtube_video_id "youtube.com//dQw4w9WgXcQ" = none := by decide
example : get_youtube_video_id "youtube.com/ watch?v=dQw4w9WgXcQ" = none := by decide

/-! ## The transcript fetcher (`fetch_youtube_transcript`, app.py lines 68-90)

The external transcript service (`YouTubeTranscriptApi`) is modelled as
environment data: `list_transcripts` either raises (`TranscriptsDisabled`,
`NoTranscriptFound`, or any other exception, modelled by `TApiError`) or
returns the available transcripts.  `find_manually_created_transcript(['en'])`
returns the manually created English transcript when one exists and raises
`NoTranscriptFound` otherwise (modelled by an `Option`); likewise
`find_generated_transcript(['en'])`.  A transcript's `fetch()` yields its
ordered segments, each with a `text` field. -/

/-- Exceptions the transcript service can raise from `list_transcripts`. -/
inductive TApiError where
  | disabled
  | notFound
  | other (msg : String)
deriving DecidableEq, Repr

/-- A transcript: its `fetch()` result is the list of segment texts. -/
structure Transcript where
  segments : List String
deriving DecidableEq, Repr

/-- Result of `list_transcripts`: the manually created and the generated
English transcript, when they exist. -/
structure TranscriptList where
  manual : Option Transcript
  generated : Option Transcript
deriving DecidableEq, Repr

/-- Environment of one `fetch_youtube_transcript` call. -/
structure TranscriptEnv where
  listResult : Except TApiError TranscriptList

/-- `fetch_youtube_transcript` (app.py lines 68-90): prefer the manually
created English transcript, fall back to the generated one (the inner
`except NoTranscriptFound`), join the segment texts with single spaces, and
convert every exception into a descriptive string at the boundary. -/
def fetch_youtube_transcript (env : TranscriptEnv) : String :=
  match env.listResult with
  | .error .disabled => "Transcripts are disabled for this video."
  | .error .notFound =>
    "No transcript found for this video. It might be a music video, very short, or processing."
  | .error (.other m) => "Could not retrieve transcript: " ++ m
  | .ok tl =>
    match tl.manual with
    | some t => String.intercalate " " t.segments
    | none =>
      match tl.generated with
      | some t => String.intercalate " " t.segments
      | none =>
        "No transcript found for this video. It might be a music video, very short, or processing."

/-! ## The website text extractor (`fetch_website_text`, app.py lines 92-111)

The HTTP fetch and the HTML parse are external: the environment either
signals a `requests` error (this also covers `raise_for_status`), a parse
error, or yields the parsed document.  The document is modelled as its
text-bearing nodes in order, each knowing whether it lies inside a `script`
or `style` element (those are `decompose`d by the code before extraction).
`soup.get_text(separator=" ", strip=True)` joins the per-node texts, each
stripped, skipping the ones that strip to nothing.  The code then runs
`re.sub(r"\s\s+", " ", text)`, which replaces every run of two or more
whitespace characters by a single space and leaves single whitespace
characters (including non-space ones such as a lone newline) untouched;
`subWs` is that substitution. -/

/-- A text-bearing node of the parsed document. -/
structure WebNode where
  inScriptOrStyle : Bool
  text : String
deriving DecidableEq, Repr

/-- The parsed document: its text nodes in document order. -/
structure WebDoc where
  nodes : List WebNode
deriving DecidableEq, Repr

/-- Failures of the fetch/parse pipeline. -/
inductive FetchErr where
  | request (msg : String)
  | parse (msg : String)
deriving DecidableEq, Repr

/-- Environment of one `fetch_website_text` call. -/
structure WebEnv where
  response : Except FetchErr WebDoc

/-- `soup.get_text(separator=" ", strip=True)` after the `script`/`style`
nodes have been decomposed. -/
def getText (doc : WebDoc) : String :=
  String.intercalate " "
    (((doc.nodes.filter (fun n => !n.inScriptOrStyle)).map
        (fun n => pyStrip n.text)).filter (fun s => s != ""))

/-- `re.sub(r"\s\s+", " ", text)`: scanning left to right, a maximal run of
two or more whitespace characters is replaced by one space; a single
whitespace character does not match the pattern and is kept as is. -/
def subWs : List Char → List Char
  | [] => []
  | c :: cs =>
    if isPySpace c then
      match cs with
      | [] => [c]
      | d :: cs' =>
        if isPySpace d then ' ' :: subWs (cs'.dropWhile isPySpace)
        else c :: subWs (d :: cs')
    else c :: subWs cs
termination_by l => l.length
decreasing_by
  · simp only [List.length_cons]
    exact Nat.lt_succ_of_le
      (Nat.le_succ_of_le (List.dropWhile_sublist isPySpace).length_le)
  · simp only [List.length_cons]; omega
  · simp only [List.length_cons]; omega

/-- `fetch_website_text` (app.py lines 92-111). -/
def fetch_website_text (env : WebEnv) : String :=
  match env.response with
  | .error (.request m) => "Error fetching website content: " ++ m
  | .error (.parse m) => "Error parsing website content: " ++ m
  | .ok doc => String.mk (subWs (getText doc).data)

/-! ## Prompt construction (the f-strings of app.py lines 169-176, 205-215,
243-253, with their literal newlines and indentation) -/

/-- The video-analysis prompt (app.py lines 169-176). -/
def videoPrompt (userQuery : String) : String :=
  "\n                            Analyze the uploaded video for content and context.\n                            Respond to the following query: "
    ++ userQuery
    ++ "\n\n                            Provide a detailed, user-friendly, and actionable response.\n                            "

/-- The YouTube-summarization prompt (app.py lines 205-215). -/
def ytPrompt (userQuery transcript : String) : String :=
  "\n                                You are provided with a transcript from a YouTube video.\n                                Based on this transcript, respond to the following query: "
    ++ userQuery
    ++ "\n\n                                Transcript:\n                                "
    ++ transcript
    ++ "\n\n                                Provide a detailed, user-friendly, and actionable summary or response.\n                                "

/-- The website-summarization prompt (app.py lines 243-253). -/
def websitePrompt (userQuery content : String) : String :=
  "\n                            You are provided with text content extracted from a website.\n                            Based on this content, respond to the following query: "
    ++ userQuery
    ++ "\n\n                            Website Content:\n                            "
    ++ content
    ++ "\n\n                            Provide a detailed, user-friendly, and actionable summary or response.\n                            "

/-! ## The three button handlers

Each handler is a pure function of an environment (the user's inputs plus the
behaviour of the external services during this action) to an outcome record
collecting the Streamlit effects: `st.warning` banners, `st.error` banners,
the calls made to `summarizer_agent.run` (the prompt, plus the processed
video handle for the video path), and the rendered result.  `agentResult`
models `summarizer_agent.run`: `Except.error` is the call raising. -/

/-- Observable outcome of the YouTube and website handlers. -/
structure Outcome where
  warnings : List String
  errors : List String
  agentCalls : List String
  output : Option String
deriving DecidableEq, Repr

/-- A file handle of the Google upload service: its `name`, its
`state.name`, and its `error` (with `message`) when present;
`error = none` models a falsy `error` attribute. -/
structure GFile where
  name : String
  stateName : String
  error : Option String
deriving DecidableEq, Repr

/-- Observable outcome of the video-file handler.  `agentCalls` records each
`summarizer_agent.run(prompt, videos=[...])` call; `tempFileDeleted` records
whether the handler's `finally` block removed the temporary upload file;
`getFileCalls` counts the `get_file` polls. -/
structure VideoOutcome where
  warnings : List String
  errors : List String
  agentCalls : List (String × List GFile)
  output : Option String
  tempFileDeleted : Bool
  getFileCalls : Nat
deriving DecidableEq, Repr

/-- Environment of one video-file action: the user's instruction, the result
of `upload_file` (which can raise), the successive results of the `get_file`
polls, and the behaviour of the agent call. -/
structure VideoEnv where
  userQuery : String
  uploadResult : Except String GFile
  fetchResults : List GFile
  agentResult : Except String String

/-- The polling loop of app.py lines 162-164: while the current handle is
`PROCESSING`, sleep and re-fetch.  Returns the first non-`PROCESSING` handle
together with the number of `get_file` calls made; `none` models the loop
never terminating (the modelled poll stream is exhausted while still
`PROCESSING` — the code has no timeout ceiling). -/
def poll (g : GFile) (fetches : List GFile) (n : Nat) : Option (GFile × Nat) :=
  if g.stateName = "PROCESSING" then
    match fetches with
    | [] => none
    | g2 :: rest => poll g2 rest (n + 1)
  else some (g, n)

/-- The `analyze_video_button` handler (app.py lines 155-184).  The
empty-instruction check sits before the `try`, so the warning branch does not
run the `finally` cleanup; every branch inside the `try` does.  `st.stop()`
after a `FAILED` state aborts the action (its control-flow exception is not
an ordinary `Exception`), still running the `finally`. -/
def videoHandler (env : VideoEnv) : Option VideoOutcome :=
  if pyBlank env.userQuery then
    some ⟨["Please enter a question or ensure a predefined prompt is selected."],
      [], [], none, false, 0⟩
  else
    match env.uploadResult with
    | .error e =>
      some ⟨[], ["An error occurred during video file analysis: " ++ e], [],
        none, true, 0⟩
    | .ok up =>
      match poll up env.fetchResults 0 with
      | none => none
      | some (g, n) =>
        if g.stateName = "FAILED" then
          some ⟨[],
            ["Video processing failed. Error: " ++
              (match g.error with
               | some m => m
               | none => "Unknown error")],
            [], none, true, n⟩
        else
          match env.agentResult with
          | .ok r =>
            some ⟨[], [], [(videoPrompt env.userQuery, [g])], some r, true, n⟩
          | .error e =>
            some ⟨[], ["An error occurred during video file analysis: " ++ e],
              [(videoPrompt env.userQuery, [g])], none, true, n⟩

/-- Environment of one YouTube action. -/
structure YTEnv where
  userQuery : String
  url : String
  tenv : TranscriptEnv
  agentResult : Except String String

/-- The `analyze_youtube_button` handler (app.py lines 192-221). -/
def youtubeHandler (env : YTEnv) : Outcome :=
  if pyBlank env.userQuery then
    ⟨["Please enter a summarization request or ensure a predefined prompt is selected."],
      [], [], none⟩
  else
    match get_youtube_video_id env.url with
    | none => ⟨[], ["Invalid YouTube URL. Please enter a valid URL."], [], none⟩
    | some _ =>
      let transcript := fetch_youtube_transcript env.tenv
      if strContains transcript "Could not retrieve transcript" ||
          strContains transcript "Transcripts are disabled" ||
          strContains transcript "No transcript found" then
        ⟨[], [transcript], [], none⟩
      else
        match env.agentResult with
        | .ok r => ⟨[], [], [ytPrompt env.userQuery transcript], some r⟩
        | .error e =>
          ⟨[], ["Error during summarization: " ++ e],
            [ytPrompt env.userQuery transcript], none⟩

/-- The part of the `analyze_website_button` handler from the point where
`content = fetch_website_text(website_url)` has been computed
(app.py lines 234-259): sentinel check, emptiness check, truncation at
25,000 characters, prompt construction and the agent call. -/
def websiteDispatch (userQuery content : String)
    (agentResult : Except String String) : Outcome :=
  if strContains content "Error fetching website content" ||
      strContains content "Error parsing website content" then
    ⟨[], [content], [], none⟩
  else if pyBlank content then
    ⟨["Could not extract meaningful content from the website. It might be a very dynamic page or access is restricted."],
      [], [], none⟩
  else
    let content2 :=
      if 25000 < content.length then
        content.take 25000 ++ "... [content truncated]"
      else content
    match agentResult with
    | .ok r => ⟨[], [], [websitePrompt userQuery content2], some r⟩
    | .error e =>
      ⟨[], ["Error during summarization: " ++ e],
        [websitePrompt userQuery content2], none⟩

/-- Environment of one website action. -/
structure WebsiteEnv where
  userQuery : String
  url : String
  web : WebEnv
  agentResult : Except String String

/-- The `analyze_website_button` handler (app.py lines 228-259). -/
def websiteHandler (env : WebsiteEnv) : Outcome :=
  if pyBlank env.userQuery then
    ⟨["Please enter a summarization request or ensure a predefined prompt is selected."],
      [], [], none⟩
  else
    websiteDispatch env.userQuery (fetch_website_text env.web) env.agentResult

/-! ## Lemmas about the URL-pattern matcher -/

/-- A literal consumes exactly itself. -/
theorem lit_append (p cs : List Char) (k : List Char → Option String) :
    lit p (p ++ cs) k = k cs := by
  induction p with
  | nil => rfl
  | cons c p ih => simp [lit, ih]

/-- The `\/` literal fails on every suffix of a slash-free input. -/
theorem lit_slash_none {cs : List Char} (h : '/' ∉ cs) :
    ∀ cs', cs' <:+ cs → ∀ k, lit ['/'] cs' k = none := by
  intro cs' hsuf k
  match cs' with
  | [] => rfl
  | d :: t =>
    have hd : d ∈ cs := hsuf.sublist.subset (List.mem_cons_self d t)
    have hne : d ≠ '/' := fun he => h (he ▸ hd)
    simp [lit, hne]

/-- Greedy star fails when its continuation fails on every suffix. -/
theorem greedyStar_none {p : Char → Bool} {k : List Char → Option String} :
    ∀ {cs : List Char}, (∀ cs', cs' <:+ cs → k cs' = none) →
      greedyStar p cs k = none := by
  intro cs
  induction cs with
  | nil =>
    intro h
    simpa [greedyStar] using h [] (List.suffix_refl [])
  | cons c t ih =>
    intro h
    have h1 : k (c :: t) = none := h _ (List.suffix_refl _)
    have h2 : greedyStar p t k = none :=
      ih (fun cs' hs => h _ (hs.trans (List.suffix_cons c t)))
    cases hp : p c <;> simp [greedyStar, hp, h1, h2, oor]

/-- Greedy plus fails when its continuation fails on every suffix. -/
theorem greedyPlus_none {p : Char → Bool} {k : List Char → Option String} :
    ∀ {cs : List Char}, (∀ cs', cs' <:+ cs → k cs' = none) →
      greedyPlus p cs k = none := by
  intro cs h
  match cs with
  | [] => rfl
  | c :: t =>
    cases hp : p c <;> simp [greedyPlus, hp]
    exact greedyStar_none (fun cs' hs => h _ (hs.trans (List.suffix_cons c t)))

/-- The capture consumes exactly an 11-character id-alphabet list. -/
theorem captureN_exact :
    ∀ (l : List Char), (∀ c ∈ l, isIdChar c = true) →
      captureN l.length l = some l := by
  intro l
  induction l with
  | nil => intro _; rfl
  | cons c t ih =>
    intro h
    have hc : isIdChar c = true := h c (List.mem_cons_self c t)
    simp [captureN, hc, ih (fun d hd => h d (List.mem_cons_of_mem c hd))]

/-- The closing capture succeeds exactly on an 11-character id. -/
theorem kCap_exact {l : List Char} (h11 : l.length = 11)
    (hal : ∀ c ∈ l, isIdChar c = true) : kCap l = some (String.mk l) := by
  unfold kCap
  rw [← h11, captureN_exact l hal]
  rfl

/-- `\S+\/` fails on slash-free input. -/
theorem kS2_none {l : List Char} (h : '/' ∉ l) : kS2 l = none :=
  greedyPlus_none (fun cs' hs => by
    unfold kSlashCap
    exact lit_slash_none h cs' hs kCap)

/-- The first inner alternative `[^\/\n\s]+\/\S+\/` fails on slash-free
input. -/
theorem altSeg_none {l : List Char} (h : '/' ∉ l) : altSeg l = none :=
  greedyPlus_none (fun cs' hs => by
    unfold kSlashS2
    exact lit_slash_none h cs' hs kS2)

/-- A position-0 match determines the `re.search` result. -/
theorem searchAux_eq_some {cs : List Char} {r : String}
    (h : matchAt cs = some r) : searchAux cs = some r := by
  cases cs with
  | nil => simpa [searchAux] using h
  | cons c t => simp [searchAux, h]

/-- `re.search` fails when the pattern matches at no position. -/
theorem searchAux_none {cs : List Char}
    (h : ∀ cs', cs' <:+ cs → matchAt cs' = none) : searchAux cs = none := by
  induction cs with
  | nil => simpa [searchAux] using h [] (List.suffix_refl [])
  | cons c t ih =>
    simp [searchAux, h _ (List.suffix_refl _),
      ih (fun cs' hs => h _ (hs.trans (List.suffix_cons c t)))]

/-- Claim C5: for every URL of shape `youtube.com/watch?v=ID`, `youtu.be/ID`,
`youtube.com/embed/ID` or `youtube.com/v/ID` with `ID` exactly 11 characters
over `[a-zA-Z0-9_-]`, the URL parser returns exactly that id; for every URL
string in which the id pattern matches at no position, it returns `none`
(Python's `None`, the "not found" outcome). -/
theorem claim_c5 (vid : List Char) (h11 : vid.length = 11)
    (hal : ∀ c ∈ vid, isIdChar c = true) (url : String)
    (hno : url.data.tails.all (fun cs => (matchAt cs).isNone) = true) :
    get_youtube_video_id ("youtube.com/watch?v=" ++ String.mk vid) =
        some (String.mk vid) ∧
    get_youtube_video_id ("youtu.be/" ++ String.mk vid) =
        some (String.mk vid) ∧
    get_youtube_video_id ("youtube.com/embed/" ++ String.mk vid) =
        some (String.mk vid) ∧
    get_youtube_video_id ("youtube.com/v/" ++ String.mk vid) =
        some (String.mk vid) ∧
    get_youtube_video_id url = none := by
  have hk : kCap vid = some (String.mk vid) := kCap_exact h11 hal
  have hsl : '/' ∉ vid := fun hm => absurd (hal '/' hm) (by decide)
  have hytc : "youtube.com/".data =
      ['y', 'o', 'u', 't', 'u', 'b', 'e', '.', 'c', 'o', 'm', '/'] := rfl
  have hytb : "youtu.be/".data =
      ['y', 'o', 'u', 't', 'u', '.', 'b', 'e', '/'] := rfl
  refine ⟨?_, ?_, ?_, ?_, ?_⟩
  · unfold get_youtube_video_id
    apply searchAux_eq_some
    have hd : ("youtube.com/watch?v=" ++ String.mk vid).data =
        'y' :: 'o' :: 'u' :: 't' :: 'u' :: 'b' :: 'e' :: '.' :: 'c' :: 'o' ::
          'm' :: '/' :: 'w' :: 'a' :: 't' :: 'c' :: 'h' :: '?' :: 'v' :: '=' ::
          vid := by
      rw [String.data_append]
      rfl
    have hnm : '/' ∉ ('w' :: 'a' :: 't' :: 'c' :: 'h' :: '?' :: 'v' :: '=' ::
        vid) := by
      simp only [List.mem_cons, not_or]
      exact ⟨by decide, by decide, by decide, by decide, by decide, by decide,
        by decide, by decide, hsl⟩
    have hAS : altSeg ('w' :: 'a' :: 't' :: 'c' :: 'h' :: '?' :: 'v' :: '=' ::
        vid) = none := altSeg_none hnm
    have hAV : altVE ('w' :: 'a' :: 't' :: 'c' :: 'h' :: '?' :: 'v' :: '=' ::
        vid) = none := by
      simp +decide [altVE, lit, oor]
    have hAL : altLazy ('w' :: 'a' :: 't' :: 'c' :: 'h' :: '?' :: 'v' :: '=' ::
        vid) = some (String.mk vid) := by
      simp +decide [altLazy, lazyStar, kQA, cls, kVEq, lit, oor, hk,
        isNonSpace, isPySpace, isQA]
    rw [hd]
    simp only [matchAt, hytc, hytb]
    simp +decide [lit, oor, hAS, hAV, hAL]
  · unfold get_youtube_video_id
    apply searchAux_eq_some
    have hd : ("youtu.be/" ++ String.mk vid).data =
        'y' :: 'o' :: 'u' :: 't' :: 'u' :: '.' :: 'b' :: 'e' :: '/' :: vid := by
      rw [String.data_append]
      rfl
    rw [hd]
    simp only [matchAt, hytc, hytb]
    simp +decide [lit, oor, hk]
  · unfold get_youtube_video_id
    apply searchAux_eq_some
    have hd : ("youtube.com/embed/" ++ String.mk vid).data =
        'y' :: 'o' :: 'u' :: 't' :: 'u' :: 'b' :: 'e' :: '.' :: 'c' :: 'o' ::
          'm' :: '/' :: 'e' :: 'm' :: 'b' :: 'e' :: 'd' :: '/' :: vid := by
      rw [String.data_append]
      rfl
    have hkS2 : kS2 vid = none := kS2_none hsl
    have hAS : altSeg ('e' :: 'm' :: 'b' :: 'e' :: 'd' :: '/' :: vid) =
        none := by
      simp +decide [altSeg, greedyPlus, greedyStar, kSlashS2, lit, oor, hkS2,
        isSeg, isPySpace]
    have hAV : altVE ('e' :: 'm' :: 'b' :: 'e' :: 'd' :: '/' :: vid) =
        some (String.mk vid) := by
      simp +decide [altVE, lit, oor, hk]
    rw [hd]
    simp only [matchAt, hytc, hytb]
    simp +decide [lit, oor, hAS, hAV]
  · unfold get_youtube_video_id
    apply searchAux_eq_some
    have hd : ("youtube.com/v/" ++ String.mk vid).data =
        'y' :: 'o' :: 'u' :: 't' :: 'u' :: 'b' :: 'e' :: '.' :: 'c' :: 'o' ::
          'm' :: '/' :: 'v' :: '/' :: vid := by
      rw [String.data_append]
      rfl
    have hkS2 : kS2 vid = none := kS2_none hsl
    have hAS : altSeg ('v' :: '/' :: vid) = none := by
      simp +decide [altSeg, greedyPlus, greedyStar, kSlashS2, lit, oor, hkS2,
        isSeg, isPySpace]
    have hAV : altVE ('v' :: '/' :: vid) = some (String.mk vid) := by
      simp +decide [altVE, lit, oor, hk]
    rw [hd]
    simp only [matchAt, hytc, hytb]
    simp +decide [lit, oor, hAS, hAV]
  · unfold get_youtube_video_id
    apply searchAux_none
    intro cs' hs
    have hmem := List.all_eq_true.mp hno cs' ((List.mem_tails cs' url.data).mpr hs)
    exact Option.isNone_iff_eq_none.mp hmem

/-- Witness for claim C5 at the concrete id `dQw4w9WgXcQ` and the concrete
pattern-free URL `example.com`. -/
theorem claim_c5_witness :
    ("dQw4w9WgXcQ".data.length = 11 ∧
      (∀ c ∈ "dQw4w9WgXcQ".data, isIdChar c = true) ∧
      "example.com".data.tails.all (fun cs => (matchAt cs).isNone) = true) ∧
    (get_youtube_video_id ("youtube.com/watch?v=" ++ String.mk "dQw4w9WgXcQ".data) =
        some (String.mk "dQw4w9WgXcQ".data) ∧
      get_youtube_video_id ("youtu.be/" ++ String.mk "dQw4w9WgXcQ".data) =
        some (String.mk "dQw4w9WgXcQ".data) ∧
      get_youtube_video_id ("youtube.com/embed/" ++ String.mk "dQw4w9WgXcQ".data) =
        some (String.mk "dQw4w9WgXcQ".data) ∧
      get_youtube_video_id ("youtube.com/v/" ++ String.mk "dQw4w9WgXcQ".data) =
        some (String.mk "dQw4w9WgXcQ".data) ∧
      get_youtube_video_id "example.com" = none) :=
  ⟨⟨by decide, by decide, by decide⟩,
    claim_c5 "dQw4w9WgXcQ".data (by decide) (by decide) "example.com" (by decide)⟩

/-- Claim C1: a blank instruction (empty or whitespace-only after stripping)
makes each of the three handlers emit its warning banner and finish without
any agent call. -/
theorem claim_c1 (ev : VideoEnv) (ey : YTEnv) (ew : WebsiteEnv)
    (hv : pyBlank ev.userQuery = true) (hy : pyBlank ey.userQuery = true)
    (hw : pyBlank ew.userQuery = true) :
    videoHandler ev = some
      ⟨["Please enter a question or ensure a predefined prompt is selected."],
        [], [], none, false, 0⟩ ∧
    youtubeHandler ey =
      ⟨["Please enter a summarization request or ensure a predefined prompt is selected."],
        [], [], none⟩ ∧
    websiteHandler ew =
      ⟨["Please enter a summarization request or ensure a predefined prompt is selected."],
        [], [], none⟩ := by
  refine ⟨?_, ?_, ?_⟩
  · simp [videoHandler, hv]
  · simp [youtubeHandler, hy]
  · simp [websiteHandler, hw]

/-- Concrete blank-query environment for the video path. -/
def c1VEnv : VideoEnv := ⟨" ", .ok ⟨"files/x", "ACTIVE", none⟩, [], .ok "r"⟩

/-- Concrete blank-query environment for the YouTube path. -/
def c1YEnv : YTEnv := ⟨" ", "u", ⟨.ok ⟨none, none⟩⟩, .ok "r"⟩

/-- Concrete blank-query environment for the website path. -/
def c1WEnv : WebsiteEnv := ⟨" ", "u", ⟨.ok ⟨[]⟩⟩, .ok "r"⟩

/-- Witness for claim C1 at a whitespace-only instruction. -/
theorem claim_c1_witness :
    (pyBlank c1VEnv.userQuery = true ∧ pyBlank c1YEnv.userQuery = true ∧
      pyBlank c1WEnv.userQuery = true) ∧
    (videoHandler c1VEnv = some
      ⟨["Please enter a question or ensure a predefined prompt is selected."],
        [], [], none, false, 0⟩ ∧
    youtubeHandler c1YEnv =
      ⟨["Please enter a summarization request or ensure a predefined prompt is selected."],
        [], [], none⟩ ∧
    websiteHandler c1WEnv =
      ⟨["Please enter a summarization request or ensure a predefined prompt is selected."],
        [], [], none⟩) :=
  ⟨⟨by decide, by decide, by decide⟩,
    claim_c1 c1VEnv c1YEnv c1WEnv (by decide) (by decide) (by decide)⟩

/-- Claim C2: with a non-blank instruction and website content that passes the
error-sentinel and emptiness checks, the prompt sent to the agent embeds the
content unchanged when it has at most 25,000 characters, and exactly its first
25,000 characters followed by the truncation marker when longer. -/
theorem claim_c2 (q c : String) (a : Except String String)
    (hs1 : strContains c "Error fetching website content" = false)
    (hs2 : strContains c "Error parsing website content" = false)
    (hne : pyBlank c = false) :
    (25000 < c.length →
      (websiteDispatch q c a).agentCalls =
        [websitePrompt q (c.take 25000 ++ "... [content truncated]")]) ∧
    (c.length ≤ 25000 →
      (websiteDispatch q c a).agentCalls = [websitePrompt q c]) := by
  constructor
  · intro hlen
    cases a <;> simp [websiteDispatch, hs1, hs2, hne, hlen]
  · intro hlen
    cases a <;> simp [websiteDispatch, hs1, hs2, hne, Nat.not_lt.mpr hlen]

/-- Witness for claim C2 at short concrete content. -/
theorem claim_c2_witness :
    (strContains "hello" "Error fetching website content" = false ∧
      strContains "hello" "Error parsing website content" = false ∧
      pyBlank "hello" = false) ∧
    ((25000 < "hello".length →
      (websiteDispatch "Summarize" "hello" (Except.ok "r")).agentCalls =
        [websitePrompt "Summarize" ("hello".take 25000 ++ "... [content truncated]")]) ∧
    ("hello".length ≤ 25000 →
      (websiteDispatch "Summarize" "hello" (Except.ok "r")).agentCalls =
        [websitePrompt "Summarize" "hello"])) :=
  ⟨⟨by decide, by decide, by decide⟩,
    claim_c2 "Summarize" "hello" (Except.ok "r") (by decide) (by decide)
      (by decide)⟩

/-- The polling loop stops at the first non-`PROCESSING` state and counts one
`get_file` call per re-fetch. -/
theorem poll_spec :
    ∀ (k : Nat) (g : GFile) (fs : List GFile) (hk : k < (g :: fs).length),
      (∀ x ∈ (g :: fs).take k, x.stateName = "PROCESSING") →
      ((g :: fs).get ⟨k, hk⟩).stateName ≠ "PROCESSING" →
      ∀ n, poll g fs n = some ((g :: fs).get ⟨k, hk⟩, n + k) := by
  intro k
  induction k with
  | zero =>
    intro g fs hk _ hterm n
    unfold poll
    simp only [List.get] at hterm ⊢
    simp [hterm]
  | succ k ih =>
    intro g fs hk hpre hterm n
    have hg : g.stateName = "PROCESSING" := by
      refine hpre g ?_
      simp [List.take_succ_cons]
    match fs with
    | [] => simp at hk
    | g2 :: rest =>
      unfold poll
      rw [if_pos hg]
      have hk' : k < (g2 :: rest).length := by simpa using hk
      have hrec := ih g2 rest hk'
        (fun x hx => hpre x (by simp [List.take_succ_cons]; exact Or.inr hx))
        (by simpa using hterm) (n + 1)
      show poll g2 rest (n + 1) =
        some ((g :: g2 :: rest).get ⟨k + 1, hk⟩, n + (k + 1))
      rw [hrec]
      have hget : (g :: g2 :: rest).get ⟨k + 1, hk⟩ =
          (g2 :: rest).get ⟨k, hk'⟩ := rfl
      have hn : n + 1 + k = n + (k + 1) := by omega
      rw [hget, hn]

/-- Claim C3: with a non-blank instruction and an upload whose state sequence
(upload result followed by the successive `get_file` results) first leaves
`PROCESSING` at index `k`, the handler makes exactly `k` `get_file` calls; if
that first terminal state is `FAILED` it surfaces the service's error message
(or "Unknown error" when none is present) and never calls the agent, and
otherwise it calls the agent once with that terminal handle. -/
theorem claim_c3 (env : VideoEnv) (up : GFile) (k : Nat)
    (hup : env.uploadResult = .ok up)
    (hk : k < (up :: env.fetchResults).length)
    (hq : pyBlank env.userQuery = false)
    (hpre : ∀ x ∈ (up :: env.fetchResults).take k, x.stateName = "PROCESSING")
    (hterm : ((up :: env.fetchResults).get ⟨k, hk⟩).stateName ≠ "PROCESSING") :
    ∃ out, videoHandler env = some out ∧ out.getFileCalls = k ∧
      (((up :: env.fetchResults).get ⟨k, hk⟩).stateName = "FAILED" →
        out.agentCalls = [] ∧
        (∀ m, ((up :: env.fetchResults).get ⟨k, hk⟩).error = some m →
          out.errors = ["Video processing failed. Error: " ++ m]) ∧
        (((up :: env.fetchResults).get ⟨k, hk⟩).error = none →
          out.errors = ["Video processing failed. Error: Unknown error"])) ∧
      (((up :: env.fetchResults).get ⟨k, hk⟩).stateName ≠ "FAILED" →
        out.agentCalls = [(videoPrompt env.userQuery,
          [(up :: env.fetchResults).get ⟨k, hk⟩])]) := by
  have hpoll := poll_spec k up env.fetchResults hk hpre hterm 0
  rw [Nat.zero_add] at hpoll
  set g := (up :: env.fetchResults).get ⟨k, hk⟩ with hgdef
  by_cases hf : g.stateName = "FAILED"
  · refine ⟨⟨[], ["Video processing failed. Error: " ++
        (match g.error with
         | some m => m
         | none => "Unknown error")], [], none, true, k⟩, ?_, rfl, ?_, ?_⟩
    · simp [videoHandler, hq, hup, hpoll, hf]
    · intro _
      refine ⟨rfl, ?_, ?_⟩
      · intro m hm
        simp [hm]
      · intro hm
        simp [hm]
    · intro h
      exact absurd hf h
  · cases ha : env.agentResult with
    | ok r =>
      refine ⟨⟨[], [], [(videoPrompt env.userQuery, [g])], some r, true, k⟩,
        ?_, rfl, ?_, fun _ => rfl⟩
      · simp [videoHandler, hq, hup, hpoll, hf, ha]
      · intro h
        exact absurd h hf
    | error e =>
      refine ⟨⟨[], ["An error occurred during video file analysis: " ++ e],
          [(videoPrompt env.userQuery, [g])], none, true, k⟩,
        ?_, rfl, ?_, fun _ => rfl⟩
      · simp [videoHandler, hq, hup, hpoll, hf, ha]
      · intro h
        exact absurd h hf

/-- Concrete environment for claim C3: one `PROCESSING` poll, then `ACTIVE`. -/
def c3Env : VideoEnv :=
  ⟨"Summarize", .ok ⟨"files/x", "PROCESSING", none⟩,
    [⟨"files/x", "ACTIVE", none⟩], .ok "resp"⟩

/-- Witness for claim C3: the sequence `PROCESSING, ACTIVE` terminates at
index 1. -/
theorem claim_c3_witness :
    (c3Env.uploadResult = .ok ⟨"files/x", "PROCESSING", none⟩ ∧
      pyBlank c3Env.userQuery = false ∧
      (∀ x ∈ ((⟨"files/x", "PROCESSING", none⟩ : GFile) ::
          c3Env.fetchResults).take 1, x.stateName = "PROCESSING")) ∧
    (∃ out, videoHandler c3Env = some out ∧ out.getFileCalls = 1 ∧
      ((((⟨"files/x", "PROCESSING", none⟩ : GFile) ::
          c3Env.fetchResults).get ⟨1, by decide⟩).stateName = "FAILED" →
        out.agentCalls = [] ∧
        (∀ m, (((⟨"files/x", "PROCESSING", none⟩ : GFile) ::
            c3Env.fetchResults).get ⟨1, by decide⟩).error = some m →
          out.errors = ["Video processing failed. Error: " ++ m]) ∧
        ((((⟨"files/x", "PROCESSING", none⟩ : GFile) ::
            c3Env.fetchResults).get ⟨1, by decide⟩).error = none →
          out.errors = ["Video processing failed. Error: Unknown error"])) ∧
      ((((⟨"files/x", "PROCESSING", none⟩ : GFile) ::
          c3Env.fetchResults).get ⟨1, by decide⟩).stateName ≠ "FAILED" →
        out.agentCalls = [(videoPrompt c3Env.userQuery,
          [((⟨"files/x", "PROCESSING", none⟩ : GFile) ::
            c3Env.fetchResults).get ⟨1, by decide⟩])])) :=
  ⟨⟨rfl, by decide, by decide⟩,
    claim_c3 c3Env ⟨"files/x", "PROCESSING", none⟩ 1 rfl (by decide)
      (by decide) (by decide) (by decide)⟩

/-- Blank-instruction environment with an uploaded video: the handler exits
through the warning branch, which sits before the `try`/`finally`. -/
def c4CexEnv : VideoEnv :=
  ⟨"", .ok ⟨"files/x", "ACTIVE", none⟩, [], .ok "resp"⟩

/-- Counterexample to claim C4 as stated: when the instruction is blank the
video action completes (warning emitted) without deleting the temporary
file — the emptiness check sits outside the `try`/`finally` block, so no exit
path through it runs the cleanup. -/
theorem claim_c4_counterexample :
    Option.map VideoOutcome.tempFileDeleted (videoHandler c4CexEnv) =
      some false ∧
    Option.map VideoOutcome.warnings (videoHandler c4CexEnv) =
      some ["Please enter a question or ensure a predefined prompt is selected."] := by
  constructor <;> rfl

/-- Claim C4 as amended: on every terminating exit path of the video action
with a non-blank instruction — success, processing failure, or exception —
the `finally` block deletes the temporary file; the blank-instruction warning
path (outside the `try`) does not delete it. -/
theorem claim_c4_amended (env : VideoEnv) (out : VideoOutcome)
    (hq : pyBlank env.userQuery = false) (h : videoHandler env = some out) :
    out.tempFileDeleted = true := by
  unfold videoHandler at h
  rw [hq] at h
  simp only [Bool.false_eq_true, if_false] at h
  split at h
  · cases Option.some.inj h
    rfl
  · split at h
    · exact absurd h (by simp)
    · split at h
      · cases Option.some.inj h
        rfl
      · split at h
        · cases Option.some.inj h
          rfl
        · cases Option.some.inj h
          rfl

/-- Non-blank environment for the amended claim C4. -/
def c4WitEnv : VideoEnv :=
  ⟨"Summarize", .ok ⟨"files/x", "ACTIVE", none⟩, [], .ok "resp"⟩

/-- The outcome of `videoHandler` on `c4WitEnv`. -/
def c4WitOut : VideoOutcome :=
  ⟨[], [], [(videoPrompt "Summarize", [⟨"files/x", "ACTIVE", none⟩])],
    some "resp", true, 0⟩

/-- Witness for the amended claim C4. -/
theorem claim_c4_amended_witness :
    (pyBlank c4WitEnv.userQuery = false ∧ videoHandler c4WitEnv = some c4WitOut) ∧
    c4WitOut.tempFileDeleted = true :=
  ⟨⟨by decide, rfl⟩, claim_c4_amended c4WitEnv c4WitOut (by decide) rfl⟩

/-- Claim C6: the transcript fetcher prefers the manually created English
transcript and falls back to the generated one only when no manual transcript
exists; in both cases it returns the segment texts joined with single
spaces (in particular, a generated-only transcript yields its joined text,
not a failure string). -/
theorem claim_c6 (env : TranscriptEnv) (tl : TranscriptList)
    (trM trG : Transcript) (h : env.listResult = .ok tl) :
    (tl.manual = some trM →
      fetch_youtube_transcript env = String.intercalate " " trM.segments) ∧
    (tl.manual = none → tl.generated = some trG →
      fetch_youtube_transcript env = String.intercalate " " trG.segments) := by
  constructor
  · intro hm
    simp [fetch_youtube_transcript, h, hm]
  · intro hm hg
    simp [fetch_youtube_transcript, h, hm, hg]

/-- Environment for claim C6: only a generated English transcript exists. -/
def c6Env : TranscriptEnv := ⟨.ok ⟨none, some ⟨["auto", "caption"]⟩⟩⟩

/-- Witness for claim C6: with only a generated transcript available, the
fetcher returns its joined text. -/
theorem claim_c6_witness :
    (c6Env.listResult = .ok ⟨none, some ⟨["auto", "caption"]⟩⟩) ∧
    (((⟨none, some ⟨["auto", "caption"]⟩⟩ : TranscriptList).manual =
        some ⟨[]⟩ →
      fetch_youtube_transcript c6Env =
        String.intercalate " " (Transcript.segments ⟨[]⟩)) ∧
    ((⟨none, some ⟨["auto", "caption"]⟩⟩ : TranscriptList).manual = none →
      (⟨none, some ⟨["auto", "caption"]⟩⟩ : TranscriptList).generated =
        some ⟨["auto", "caption"]⟩ →
      fetch_youtube_transcript c6Env =
        String.intercalate " " (Transcript.segments ⟨["auto", "caption"]⟩))) :=
  ⟨rfl, claim_c6 c6Env ⟨none, some ⟨["auto", "caption"]⟩⟩ ⟨[]⟩
    ⟨["auto", "caption"]⟩ rfl⟩

/-- If two strings start with distinct characters, no string appended to the
first makes them equal. -/
theorem ne_append_of_head {s t : String} {c d : Char}
    (hs : s.data.head? = some c) (ht : t.data.head? = some d) (hcd : c ≠ d)
    (m : String) : s ++ m ≠ t := by
  intro he
  have h1 : (s ++ m).data.head? = some c := by
    rw [String.data_append]
    cases hsd : s.data with
    | nil => rw [hsd] at hs; cases hs
    | cons a l =>
      rw [hsd] at hs
      cases hs
      simp
  rw [he, ht] at h1
  exact hcd (Option.some.inj h1).symm

/-- Claim C7: each failure of the transcript service is converted into a
string at the fetcher's boundary (the Lean model is a total function into
`String`, so no exception escapes): transcripts disabled, no transcript
found, and any other error each produce their own message, and the three
messages are pairwise distinguishable whatever the wrapped error text is. -/
theorem claim_c7 (env : TranscriptEnv) (m : String) :
    (env.listResult = .error .disabled →
      fetch_youtube_transcript env = "Transcripts are disabled for this video.") ∧
    (env.listResult = .error .notFound →
      fetch_youtube_transcript env =
        "No transcript found for this video. It might be a music video, very short, or processing.") ∧
    (env.listResult = .error (.other m) →
      fetch_youtube_transcript env = "Could not retrieve transcript: " ++ m) ∧
    ("Transcripts are disabled for this video." ≠
      "No transcript found for this video. It might be a music video, very short, or processing.") ∧
    ("Could not retrieve transcript: " ++ m ≠
      "Transcripts are disabled for this video.") ∧
    ("Could not retrieve transcript: " ++ m ≠
      "No transcript found for this video. It might be a music video, very short, or processing.") := by
  refine ⟨?_, ?_, ?_, by decide, ?_, ?_⟩
  · intro h
    simp [fetch_youtube_transcript, h]
  · intro h
    simp [fetch_youtube_transcript, h]
  · intro h
    simp [fetch_youtube_transcript, h]
  · refine ne_append_of_head (c := 'C') (d := 'T') ?_ ?_ (by decide) m <;> rfl
  · refine ne_append_of_head (c := 'C') (d := 'N') ?_ ?_ (by decide) m <;> rfl

/-- Environment for claim C7: transcripts disabled. -/
def c7Env : TranscriptEnv := ⟨.error .disabled⟩

/-- Witness for claim C7 at the disabled-transcripts environment. -/
theorem claim_c7_witness :
    (c7Env.listResult = .error .disabled) ∧
    ((c7Env.listResult = .error .disabled →
      fetch_youtube_transcript c7Env = "Transcripts are disabled for this video.") ∧
    (c7Env.listResult = .error .notFound →
      fetch_youtube_transcript c7Env =
        "No transcript found for this video. It might be a music video, very short, or processing.") ∧
    (c7Env.listResult = .error (.other "boom") →
      fetch_youtube_transcript c7Env = "Could not retrieve transcript: " ++ "boom") ∧
    ("Transcripts are disabled for this video." ≠
      "No transcript found for this video. It might be a music video, very short, or processing.") ∧
    ("Could not retrieve transcript: " ++ "boom" ≠
      "Transcripts are disabled for this video.") ∧
    ("Could not retrieve transcript: " ++ "boom" ≠
      "No transcript found for this video. It might be a music video, very short, or processing.")) :=
  ⟨rfl, claim_c7 c7Env "boom"⟩

/-- A successful prefix test implies membership-wise containment. -/
theorem isPrefixB_subset :
    ∀ {needle hay : List Char}, isPrefixB needle hay = true → needle ⊆ hay := by
  intro needle
  induction needle with
  | nil => intro hay _; exact List.nil_subset hay
  | cons a as ih =>
    intro hay h
    match hay with
    | [] => cases h
    | b :: bs =>
      simp only [isPrefixB, Bool.and_eq_true, beq_iff_eq] at h
      obtain ⟨rfl, hpre⟩ := h
      intro x hx
      rcases List.mem_cons.mp hx with rfl | hx
      · exact List.mem_cons_self _ _
      · exact List.mem_cons_of_mem _ (ih hpre hx)

/-- A successful substring test implies membership-wise containment. -/
theorem containsSub_subset :
    ∀ {hay needle : List Char}, containsSub hay needle = true → needle ⊆ hay := by
  intro hay
  induction hay with
  | nil =>
    intro needle h
    match needle with
    | [] => exact List.nil_subset _
    | c :: cs => cases h
  | cons b bs ih =>
    intro needle h
    simp only [containsSub, Bool.or_eq_true] at h
    rcases h with h | h
    · exact isPrefixB_subset h
    · exact fun x hx => List.mem_cons_of_mem _ (ih h hx)

/-- A whitespace-only string contains no substring holding a non-whitespace
character. -/
theorem strContains_eq_false_of_blank {t s : String} {c : Char}
    (hws : pyBlank t = true) (hc : c ∈ s.data) (hcws : isPySpace c = false) :
    strContains t s = false := by
  cases hcon : strContains t s with
  | false => rfl
  | true =>
    have hsub : s.data ⊆ t.data := containsSub_subset hcon
    have := List.all_eq_true.mp hws c (hsub hc)
    rw [this] at hcws
    cases hcws

/-- Claim C9: with a non-blank instruction and a URL holding a video id, the
YouTube handler reports an error (and never calls the agent) exactly when the
fetched transcript contains one of the three sentinel substrings; a
successfully fetched transcript whose own text contains a sentinel phrase is
therefore misclassified as a failure, shown at a concrete environment. -/
theorem claim_c9 (env : YTEnv) (vid : String)
    (hq : pyBlank env.userQuery = false)
    (hurl : get_youtube_video_id env.url = some vid) :
    ((youtubeHandler env).agentCalls = [] ↔
      (strContains (fetch_youtube_transcript env.tenv) "Could not retrieve transcript" ||
        strContains (fetch_youtube_transcript env.tenv) "Transcripts are disabled" ||
        strContains (fetch_youtube_transcript env.tenv) "No transcript found") = true) ∧
    ((strContains (fetch_youtube_transcript env.tenv) "Could not retrieve transcript" ||
        strContains (fetch_youtube_transcript env.tenv) "Transcripts are disabled" ||
        strContains (fetch_youtube_transcript env.tenv) "No transcript found") = true →
      (youtubeHandler env).errors = [fetch_youtube_transcript env.tenv] ∧
      (youtubeHandler env).agentCalls = []) := by
  cases hcon : (strContains (fetch_youtube_transcript env.tenv) "Could not retrieve transcript" ||
      strContains (fetch_youtube_transcript env.tenv) "Transcripts are disabled" ||
      strContains (fetch_youtube_transcript env.tenv) "No transcript found") with
  | true =>
    refine ⟨?_, ?_⟩
    · simp [youtubeHandler, hq, hurl, hcon]
    · intro _
      constructor <;> simp [youtubeHandler, hq, hurl, hcon]
  | false =>
    refine ⟨?_, by intro h; cases h⟩
    cases ha : env.agentResult <;> simp [youtubeHandler, hq, hurl, hcon, ha]

/-- Transcript environment for claim C9: the fetch succeeds and the
transcript's own text contains the phrase "No transcript found". -/
def c9Tenv : TranscriptEnv :=
  ⟨.ok ⟨some ⟨["The speaker says No transcript found and moves on"]⟩, none⟩⟩

/-- Full YouTube environment for claim C9. -/
def c9Env : YTEnv := ⟨"Summarize this", "youtu.be/dQw4w9WgXcQ", c9Tenv, .ok "resp"⟩

/-- Witness for claim C9, including the concrete misclassification: the fetch
succeeds, yet the handler reports the transcript as an error and never calls
the agent. -/
theorem claim_c9_witness :
    (pyBlank c9Env.userQuery = false ∧
      get_youtube_video_id c9Env.url = some "dQw4w9WgXcQ" ∧
      fetch_youtube_transcript c9Tenv =
        "The speaker says No transcript found and moves on" ∧
      (youtubeHandler c9Env).errors =
        ["The speaker says No transcript found and moves on"] ∧
      (youtubeHandler c9Env).agentCalls = []) ∧
    (((youtubeHandler c9Env).agentCalls = [] ↔
      (strContains (fetch_youtube_transcript c9Env.tenv) "Could not retrieve transcript" ||
        strContains (fetch_youtube_transcript c9Env.tenv) "Transcripts are disabled" ||
        strContains (fetch_youtube_transcript c9Env.tenv) "No transcript found") = true) ∧
    ((strContains (fetch_youtube_transcript c9Env.tenv) "Could not retrieve transcript" ||
        strContains (fetch_youtube_transcript c9Env.tenv) "Transcripts are disabled" ||
        strContains (fetch_youtube_transcript c9Env.tenv) "No transcript found") = true →
      (youtubeHandler c9Env).errors = [fetch_youtube_transcript c9Env.tenv] ∧
      (youtubeHandler c9Env).agentCalls = [])) :=
  ⟨⟨by decide, by decide, by decide, by decide, by decide⟩,
    claim_c9 c9Env "dQw4w9WgXcQ" (by decide) (by decide)⟩

/-- Claim C10: a successfully fetched transcript that is empty or
whitespace-only still reaches the agent on the YouTube path (the prompt is
built around it and the agent is invoked), while the website path rejects
whitespace-only extracted content with a warning before any agent call: the
emptiness check exists only on the website path. -/
theorem claim_c10 (ey : YTEnv) (vid q c : String) (a : Except String String)
    (hy : pyBlank ey.userQuery = false)
    (hurl : get_youtube_video_id ey.url = some vid)
    (ht : pyBlank (fetch_youtube_transcript ey.tenv) = true)
    (hcw : pyBlank c = true) :
    (youtubeHandler ey).agentCalls =
      [ytPrompt ey.userQuery (fetch_youtube_transcript ey.tenv)] ∧
    (websiteDispatch q c a).agentCalls = [] ∧
    (websiteDispatch q c a).warnings =
      ["Could not extract meaningful content from the website. It might be a very dynamic page or access is restricted."] := by
  have h1 : strContains (fetch_youtube_transcript ey.tenv)
      "Could not retrieve transcript" = false :=
    strContains_eq_false_of_blank (c := 'C') ht (by decide) (by decide)
  have h2 : strContains (fetch_youtube_transcript ey.tenv)
      "Transcripts are disabled" = false :=
    strContains_eq_false_of_blank (c := 'T') ht (by decide) (by decide)
  have h3 : strContains (fetch_youtube_transcript ey.tenv)
      "No transcript found" = false :=
    strContains_eq_false_of_blank (c := 'N') ht (by decide) (by decide)
  have w1 : strContains c "Error fetching website content" = false :=
    strContains_eq_false_of_blank (c := 'E') hcw (by decide) (by decide)
  have w2 : strContains c "Error parsing website content" = false :=
    strContains_eq_false_of_blank (c := 'E') hcw (by decide) (by decide)
  refine ⟨?_, ?_, ?_⟩
  · cases ha : ey.agentResult <;>
      simp [youtubeHandler, hy, hurl, h1, h2, h3, ha]
  · simp [websiteDispatch, w1, w2, hcw]
  · simp [websiteDispatch, w1, w2, hcw]

/-- YouTube environment for claim C10: the fetch succeeds with a manual
transcript that has no segments, so the joined text is empty. -/
def c10Env : YTEnv :=
  ⟨"Summarize", "youtu.be/dQw4w9WgXcQ", ⟨.ok ⟨some ⟨[]⟩, none⟩⟩, .ok "resp"⟩

/-- Witness for claim C10: empty transcript still reaches the agent on the
YouTube path; whitespace-only website content is rejected with a warning. -/
theorem claim_c10_witness :
    (pyBlank c10Env.userQuery = false ∧
      get_youtube_video_id c10Env.url = some "dQw4w9WgXcQ" ∧
      pyBlank (fetch_youtube_transcript c10Env.tenv) = true ∧
      pyBlank " " = true) ∧
    ((youtubeHandler c10Env).agentCalls =
      [ytPrompt c10Env.userQuery (fetch_youtube_transcript c10Env.tenv)] ∧
    (websiteDispatch "Summarize" " " (Except.ok "resp")).agentCalls = [] ∧
    (websiteDispatch "Summarize" " " (Except.ok "resp")).warnings =
      ["Could not extract meaningful content from the website. It might be a very dynamic page or access is restricted."]) :=
  ⟨⟨by decide, by decide, by decide, by decide⟩,
    claim_c10 c10Env "dQw4w9WgXcQ" "Summarize" " " (Except.ok "resp")
      (by decide) (by decide) (by decide) (by decide)⟩

/-- No two adjacent characters are both whitespace. -/
def noTwoWs : List Char → Bool
  | [] => true
  | [_] => true
  | a :: b :: t => !(isPySpace a && isPySpace b) && noTwoWs (b :: t)

/-- A one-character list is left unchanged by the substitution. -/
theorem subWs_single (c : Char) : subWs [c] = [c] := by
  rw [subWs.eq_2]
  by_cases hc : isPySpace c = true
  · rw [if_pos hc]
  · rw [if_neg hc, subWs.eq_1]

/-- The substitution keeps the first character's whitespace class. -/
theorem subWs_cons_head (c : Char) (cs : List Char) :
    ∃ d t, subWs (c :: cs) = d :: t ∧ isPySpace d = isPySpace c := by
  cases cs with
  | nil => exact ⟨c, [], subWs_single c, rfl⟩
  | cons d cs' =>
    by_cases hc : isPySpace c = true
    · by_cases hd : isPySpace d = true
      · refine ⟨' ', subWs (cs'.dropWhile isPySpace), ?_, ?_⟩
        · rw [subWs.eq_3, if_pos hc, if_pos hd]
        · rw [hc]
          decide
      · exact ⟨c, subWs (d :: cs'), by rw [subWs.eq_3, if_pos hc, if_neg hd],
          rfl⟩
    · exact ⟨c, subWs (d :: cs'), by rw [subWs.eq_3, if_neg hc], rfl⟩

/-- Prepending a character that cannot form a whitespace pair preserves
`noTwoWs`. -/
theorem noTwoWs_cons {c : Char} {l : List Char} (hl : noTwoWs l = true)
    (h : isPySpace c = false ∨ ∀ d t, l = d :: t → isPySpace d = false) :
    noTwoWs (c :: l) = true := by
  cases l with
  | nil => rfl
  | cons d t =>
    have hand : (isPySpace c && isPySpace d) = false := by
      rcases h with h | h
      · rw [h, Bool.false_and]
      · rw [h d t rfl, Bool.and_false]
    simp [noTwoWs, hand, hl]

/-- The output of `re.sub(r"\s\s+", " ", ·)` never has two adjacent
whitespace characters. -/
theorem subWs_noTwo : ∀ l : List Char, noTwoWs (subWs l) = true := by
  intro l
  induction l using subWs.induct with
  | case1 =>
    rw [subWs.eq_1]
    rfl
  | case2 d hd =>
    rw [subWs_single]
    rfl
  | case3 c hc d cs' hd ih =>
    rw [subWs.eq_3, if_pos hc, if_pos hd]
    cases hR : cs'.dropWhile isPySpace with
    | nil =>
      rw [subWs.eq_1]
      rfl
    | cons e t =>
      have he : isPySpace e = false := by
        have h0 := List.head?_dropWhile_not isPySpace cs'
        rw [hR] at h0
        simpa using h0
      obtain ⟨d', t', hst, hds⟩ := subWs_cons_head e t
      rw [hst]
      rw [hR, hst] at ih
      refine noTwoWs_cons ih (Or.inr ?_)
      intro dd tt heq
      injection heq with h1 _
      rw [← h1, hds, he]
  | case4 c hc d cs' hd ih =>
    rw [subWs.eq_3, if_pos hc, if_neg hd]
    obtain ⟨d', t', hst, hds⟩ := subWs_cons_head d cs'
    rw [hst]
    rw [hst] at ih
    refine noTwoWs_cons ih (Or.inr ?_)
    intro dd tt heq
    injection heq with h1 _
    rw [← h1, hds]
    simpa using hd
  | case5 c cs hc ih =>
    have hc' : isPySpace c = false := by simpa using hc
    cases cs with
    | nil =>
      rw [subWs_single]
      rfl
    | cons d cs' =>
      rw [subWs.eq_3, if_neg hc]
      exact noTwoWs_cons ih (Or.inl hc')

/-- Claim C8 as amended: for every successfully fetched document the
extractor removes the `script`/`style` nodes, joins the visible text with
spaces, and replaces every run of two or more whitespace characters by one
space, so the returned text never has two adjacent whitespace characters; a
single non-space whitespace character inside a text fragment may remain (see
the counterexample to the original claim). -/
theorem claim_c8_amended (env : WebEnv) (doc : WebDoc)
    (h : env.response = .ok doc) :
    noTwoWs (fetch_website_text env).data = true := by
  have hrw : fetch_website_text env = String.mk (subWs (getText doc).data) := by
    simp [fetch_website_text, h]
  rw [hrw]
  exact subWs_noTwo (getText doc).data

/-- Document whose single visible text node carries an internal newline. -/
def c8CexEnv : WebEnv := ⟨.ok ⟨[⟨false, "a\nb"⟩]⟩⟩

/-- Counterexample to claim C8 as stated: `re.sub(r"\s\s+", " ", ·)` does not
touch a single newline between words, so the returned text contains a
whitespace character other than a space between two words. -/
theorem claim_c8_counterexample :
    (fetch_website_text c8CexEnv).data = ['a', '\n', 'b'] ∧
    isPySpace '\n' = true ∧ '\n' ≠ ' ' := by
  refine ⟨?_, by decide, by decide⟩
  show subWs ['a', '\n', 'b'] = ['a', '\n', 'b']
  simp +decide [subWs]

/-- Witness for the amended claim C8 at the newline document. -/
theorem claim_c8_amended_witness :
    (c8CexEnv.response = .ok ⟨[⟨false, "a\nb"⟩]⟩) ∧
    noTwoWs (fetch_website_text c8CexEnv).data = true :=
  ⟨rfl, claim_c8_amended c8CexEnv ⟨[⟨false, "a\nb"⟩]⟩ rfl⟩
